import Mathlib

/-!
Shallow embedding of the user-process virtual-memory subsystem of the
repository (files `src/userprog/exception.c` and `src/userprog/syscall.c`),
together with theorems settling the frozen claims about it.

Addresses, file handles and frame addresses are modelled as `Nat`; pointer
subtraction that the C performs on 32-bit pointers is modelled with explicit
arithmetic modulo `2^32`.  External effects (frame allocation, MMU installs,
file and swap I/O, locks) are recorded in an event trace, with their results
supplied by explicit oracle parameters.
-/

namespace PintosVM

/-- Page size, from `threads/vaddr.h` (`PGSIZE` = 4096). -/
def PGSIZE : Nat := 4096

/-- Kernel base, from `threads/vaddr.h` (`PHYS_BASE` = 0xC0000000). -/
def PHYS_BASE : Nat := 0xC0000000

/-- Size of a thread's fd table; `open` scans indices 2..129. -/
def FD_TABLE_SIZE : Nat := 130

/-- `pg_round_down` from `threads/vaddr.h`: round an address down to a page boundary. -/
def pg_round_down (a : Nat) : Nat := a - a % PGSIZE

/-- `pg_ofs` from `threads/vaddr.h`: offset of an address within its page. -/
def pg_ofs (a : Nat) : Nat := a % PGSIZE

/-- `is_user_vaddr` from `threads/vaddr.h`: the address lies below `PHYS_BASE`. -/
def is_user_vaddr (a : Nat) : Bool := a < PHYS_BASE

/-- 32-bit pointer subtraction `a - b`, as the C performs on `void*` values. -/
def usub32 (a b : Nat) : Nat := (a % 2 ^ 32 + (2 ^ 32 - b % 2 ^ 32)) % 2 ^ 32

/-- Page purposes, from `vm/page.h` (`FOR_FILE`, `FOR_STACK`, `FOR_MMAP`). -/
inductive Purpose where
  | FOR_FILE
  | FOR_STACK
  | FOR_MMAP
  deriving DecidableEq, Repr

/-- Observable external actions performed by the embedded code. -/
inductive Ev where
  | frameAlloc (kpage : Nat) (zeroed : Bool) (flag : Bool)
  | frameFree (kpage : Nat)
  | fileSeek (file ofs : Nat)
  | fileReadEv (file dst req got : Nat)
  | fileWriteEv (file src n : Nat)
  | fileWriteAt (file src n ofs : Nat)
  | fileCloseEv (file : Nat)
  | sdRead (slot kpage : Nat)
  | installEv (vpage kpage : Nat) (writable ok : Bool)
  | clearPage (vpage : Nat)
  | pallocGet (kpage : Nat)
  | exitEv (status : Int)
  | lockAcq
  | lockRel
  | touch (addr : Nat)
  | printInstallFail
  | inputGetcEv
  | putbufEv
  deriving DecidableEq, Repr

/-- `struct page` from `vm/page.h`, as used by `exception.c` and `syscall.c`:
backing file (`none` models the NULL file of stack pages), file offset,
user page address, frame address (`none` models a NULL frame pointer),
read/zero byte counts, writability, purpose, swap status and swap slot. -/
structure Page where
  page_file : Option Nat
  ofs : Nat
  page_addr : Nat
  frame_addr : Option Nat
  read_bytes : Nat
  zero_bytes : Nat
  is_writable : Bool
  purpose : Purpose
  is_swapped : Bool
  swap_i : Nat
  deriving DecidableEq, Repr

/-- `struct mapping` from `vm/mmap.h`, as used by `syscall.c`: id, base
address, length in bytes, re-opened file handle, originating fd, and the
page addresses of the SPT entries pushed onto `m->pages`. -/
structure Mapping where
  id : Nat
  addr : Nat
  size : Nat
  file : Nat
  fd : Nat
  pages : List Nat
  deriving DecidableEq, Repr

/-- The per-thread state the two source files manipulate: the SPT, the
recorded user `esp`, the page directory (installed `(vpage, frame, writable)`
triples), the set of vpages whose MMU dirty bit is set, the mmap table, the
recorded data segment top, the fd table (file handles), and the set of
allocated swap slots. -/
structure Thread where
  SPT : List Page
  esp : Nat
  pagedir : List (Nat × Nat × Bool)
  dirty : List Nat
  mmap_table : List Mapping
  data_segment_start : Nat
  fd_table : List (Option Nat)
  swap_used : List Nat
  deriving DecidableEq, Repr

/-- `SPT_search` (declared in `vm/page.h`): look up the SPT entry whose
`page_addr` equals the given page address. -/
def SPT_search (t : Thread) (a : Nat) : Option Page :=
  t.SPT.find? (fun p => p.page_addr = a)

/-- Modelled from the spec: `SPT_insert` lives in `vm/page.c`, which is not
under `src/`.  Per the spec's loader interface and SPT design, it creates an
entry from its arguments; a fresh entry is not swapped and has no slot. -/
def SPT_insert (file : Option Nat) (ofs addr : Nat) (kpage : Option Nat)
    (read_bytes zero_bytes : Nat) (writable : Bool) (purpose : Purpose) : Page :=
  ⟨file, ofs, addr, kpage, read_bytes, zero_bytes, writable, purpose, false, 0⟩

/-- In-place mutation of the SPT entry at page address `a`, as the C code's
writes through the `struct page*` perform. -/
def SPT_update (t : Thread) (a : Nat) (f : Page → Page) : Thread :=
  { t with SPT := t.SPT.map (fun p => if p.page_addr = a then f p else p) }

/-- `pagedir_set_page`: when it succeeds the page directory gains a present
mapping `vpage → kpage` with the given writability; on failure it is
unchanged.  The success bit is supplied by the oracle. -/
def pagedir_set_page (t : Thread) (ok : Bool) (vpage kpage : Nat) (w : Bool) : Thread :=
  if ok then { t with pagedir := (vpage, kpage, w) :: t.pagedir } else t

/-- `pagedir_is_dirty`: the MMU dirty bit of the given vpage. -/
def pagedir_is_dirty (t : Thread) (a : Nat) : Bool := t.dirty.contains a

/-- `pagedir_clear_page`: remove the present mapping for the given vpage. -/
def pagedir_clear_page (t : Thread) (a : Nat) : Thread :=
  { t with pagedir := t.pagedir.filter (fun e => e.1 ≠ a) }

/-- Modelled from the spec: `SD_read` lives in `vm/swap.c`, which is not
under `src/`.  The spec says swap slots are "freed on reload or exit" and the
FILE/SWAPPED fault row reads "swap_read(slot, frame); free slot", so reading
a slot back releases it from the swap allocator. -/
def SD_read (t : Thread) (slot : Nat) : Thread :=
  { t with swap_used := t.swap_used.erase slot }

/-- Modelled from the spec: `find_mapping_addr` lives in `vm/mmap.c`, which
is not under `src/`.  Per the spec's overlap validation, it returns the
mapping whose covered byte range contains the address, if any. -/
def find_mapping_addr (table : List Mapping) (a : Nat) : Option Mapping :=
  table.find? (fun m => m.addr ≤ a && a < m.addr + m.size)

/-- Modelled from the spec: `find_mapping_id` lives in `vm/mmap.c`, which is
not under `src/`.  It returns the first mapping with the given id. -/
def find_mapping_id (table : List Mapping) (id : Nat) : Option Mapping :=
  table.find? (fun m => m.id = id)

/-- Oracle for one run of the page-fault handler: the frame address
`frame_alloc` (or `palloc`) returns, whether `pagedir_set_page` succeeds,
and the byte count `file_read` returns. -/
structure FaultEnv where
  frame_page : Nat
  install_ok : Bool
  read_got : Nat
  deriving DecidableEq, Repr

/-- Case 1 of `page_fault` (`exception.c`): no SPT entry, candidate stack
growth.  `fault_addr <= PHYS_BASE - 0x800000` exits with -1; otherwise, when
`fault_addr >= esp - 32`, a zeroed frame is allocated, installed writable,
a `FOR_STACK` entry is inserted and the thread's `esp` is set to the fault
address; otherwise exit with -1. -/
def stack_growth (t : Thread) (fault_addr fault_page_addr esp : Nat)
    (env : FaultEnv) : List Ev × Option Thread :=
  if fault_addr ≤ PHYS_BASE - 0x800000 then ([.exitEv (-1)], none)
  else if usub32 esp 32 ≤ fault_addr then
    let kpage := env.frame_page
    let t1 := pagedir_set_page t env.install_ok fault_page_addr kpage true
    let t2 := { t1 with
      SPT := t1.SPT ++ [SPT_insert none 0 fault_page_addr (some kpage) 0 PGSIZE true .FOR_STACK],
      esp := fault_addr }
    ([.frameAlloc kpage true false,
      .installEv fault_page_addr kpage true env.install_ok], some t2)
  else ([.exitEv (-1)], none)

/-- `FOR_FILE`, not swapped branch of `page_fault`: seek, allocate a frame,
record it in the entry, read `read_bytes` from the file; a short read frees
the frame and exits with -1; otherwise install with the entry's writability,
printing a message when the install fails (without freeing or exiting). -/
def file_not_swapped (t : Thread) (p : Page) (env : FaultEnv) : List Ev × Option Thread :=
  let file := p.page_file.getD 0
  let kpage := env.frame_page
  let t1 := SPT_update t p.page_addr
    (fun q => { q with frame_addr := some kpage, is_swapped := false })
  if env.read_got ≠ p.read_bytes then
    ([.fileSeek file p.ofs, .frameAlloc kpage false true,
      .fileReadEv file kpage p.read_bytes env.read_got,
      .frameFree kpage, .exitEv (-1)], none)
  else
    let t2 := pagedir_set_page t1 env.install_ok p.page_addr kpage p.is_writable
    ([.fileSeek file p.ofs, .frameAlloc kpage false true,
      .fileReadEv file kpage p.read_bytes env.read_got,
      .installEv p.page_addr kpage p.is_writable env.install_ok] ++
       (if env.install_ok then [] else [.printInstallFail]), some t2)

/-- `FOR_FILE`, swapped branch of `page_fault`: seek, allocate a frame,
record it, read the page back from the recorded swap slot, clear the swap
flag, install with the entry's writability (printing on failure). -/
def file_swapped (t : Thread) (p : Page) (env : FaultEnv) : List Ev × Option Thread :=
  let file := p.page_file.getD 0
  let kpage := env.frame_page
  let t1 := SPT_update t p.page_addr (fun q => { q with frame_addr := some kpage })
  let t2 := SD_read t1 p.swap_i
  let t3 := SPT_update t2 p.page_addr (fun q => { q with is_swapped := false })
  let t4 := pagedir_set_page t3 env.install_ok p.page_addr kpage p.is_writable
  ([.fileSeek file p.ofs, .frameAlloc kpage false true,
    .sdRead p.swap_i kpage,
    .installEv p.page_addr kpage p.is_writable env.install_ok] ++
     (if env.install_ok then [] else [.printInstallFail]), some t4)

/-- `FOR_STACK`, not swapped branch of `page_fault`: allocate a frame,
record it, install, and set the thread's `esp` to the fault address. -/
def stack_not_swapped (t : Thread) (p : Page) (fault_addr : Nat)
    (env : FaultEnv) : List Ev × Option Thread :=
  let kpage := env.frame_page
  let t1 := SPT_update t p.page_addr (fun q => { q with frame_addr := some kpage })
  let t2 := pagedir_set_page t1 env.install_ok p.page_addr kpage p.is_writable
  let t3 := { t2 with esp := fault_addr }
  ([.frameAlloc kpage false false,
    .installEv p.page_addr kpage p.is_writable env.install_ok], some t3)

/-- `FOR_STACK`, swapped branch of `page_fault`: allocate a frame, record it,
clear the swap flag, read back from the slot, install, and set the thread's
`esp` to the fault address. -/
def stack_swapped (t : Thread) (p : Page) (fault_addr : Nat)
    (env : FaultEnv) : List Ev × Option Thread :=
  let kpage := env.frame_page
  let t1 := SPT_update t p.page_addr
    (fun q => { q with frame_addr := some kpage, is_swapped := false })
  let t2 := SD_read t1 p.swap_i
  let t3 := pagedir_set_page t2 env.install_ok p.page_addr kpage p.is_writable
  let t4 := { t3 with esp := fault_addr }
  ([.frameAlloc kpage false false, .sdRead p.swap_i kpage,
    .installEv p.page_addr kpage p.is_writable env.install_ok], some t4)

/-- `FOR_MMAP`, not swapped branch of `page_fault`; the source comments it
"TEMPORARILY COPIED FROM FOR_FILE" and the body is the same. -/
def mmap_not_swapped (t : Thread) (p : Page) (env : FaultEnv) : List Ev × Option Thread :=
  let file := p.page_file.getD 0
  let kpage := env.frame_page
  let t1 := SPT_update t p.page_addr
    (fun q => { q with frame_addr := some kpage, is_swapped := false })
  if env.read_got ≠ p.read_bytes then
    ([.fileSeek file p.ofs, .frameAlloc kpage false true,
      .fileReadEv file kpage p.read_bytes env.read_got,
      .frameFree kpage, .exitEv (-1)], none)
  else
    let t2 := pagedir_set_page t1 env.install_ok p.page_addr kpage p.is_writable
    ([.fileSeek file p.ofs, .frameAlloc kpage false true,
      .fileReadEv file kpage p.read_bytes env.read_got,
      .installEv p.page_addr kpage p.is_writable env.install_ok] ++
       (if env.install_ok then [] else [.printInstallFail]), some t2)

/-- `FOR_MMAP`, swapped branch of `page_fault`; same body as the FILE
swapped branch. -/
def mmap_swapped (t : Thread) (p : Page) (env : FaultEnv) : List Ev × Option Thread :=
  let file := p.page_file.getD 0
  let kpage := env.frame_page
  let t1 := SPT_update t p.page_addr (fun q => { q with frame_addr := some kpage })
  let t2 := SD_read t1 p.swap_i
  let t3 := SPT_update t2 p.page_addr (fun q => { q with is_swapped := false })
  let t4 := pagedir_set_page t3 env.install_ok p.page_addr kpage p.is_writable
  ([.fileSeek file p.ofs, .frameAlloc kpage false true,
    .sdRead p.swap_i kpage,
    .installEv p.page_addr kpage p.is_writable env.install_ok] ++
     (if env.install_ok then [] else [.printInstallFail]), some t4)

/-- `page_fault` from `src/userprog/exception.c`: pick `esp` from the trap
frame in user mode or the thread's saved `esp` in kernel mode, reject null
or kernel addresses, then dispatch on the SPT lookup of the rounded-down
fault page and on the entry's purpose and swap status.  A `write` fault on a
non-writable entry exits with -1. -/
def page_fault (t : Thread) (fault_addr : Nat) (write user : Bool)
    (frame_esp : Nat) (env : FaultEnv) : List Ev × Option Thread :=
  let esp := if user then frame_esp else t.esp
  if fault_addr = 0 ∨ ¬ is_user_vaddr fault_addr then ([.exitEv (-1)], none)
  else
    let fault_page_addr := pg_round_down fault_addr
    match SPT_search t fault_page_addr with
    | none => stack_growth t fault_addr fault_page_addr esp env
    | some p =>
      if write && !p.is_writable then ([.exitEv (-1)], none)
      else
        match p.purpose with
        | .FOR_FILE =>
          if !p.is_swapped then file_not_swapped t p env else file_swapped t p env
        | .FOR_STACK =>
          if !p.is_swapped then stack_not_swapped t p fault_addr env
          else stack_swapped t p fault_addr env
        | .FOR_MMAP =>
          if !p.is_swapped then mmap_not_swapped t p env else mmap_swapped t p env

/-- Oracle for one `mmap` call: the handle `file_reopen` returns and the
kernel pages the i-th `palloc_get_page(0)` returns. -/
structure MmapEnv where
  reopen : Nat
  palloc : Nat → Nat

/-- The page-wise loop of `mmap` (`syscall.c`): while `read_bytes > 0`, take
`page_read_bytes = min(read_bytes, PGSIZE)`, allocate a kernel page, insert
an SPT entry carrying it, read the file content into the page, and advance
`ofs`, `addr` and the remaining byte count.  `fuel` bounds the iterations;
each iteration consumes at least one byte, so `fuel = read_bytes` suffices
and the result is then independent of the bound. -/
def mmap_loop (mfile : Nat) (palloc : Nat → Nat) :
    Nat → Nat → Nat → Nat → Nat → List Page × List Ev
  | 0, _, _, _, _ => ([], [])
  | fuel + 1, i, read_bytes, ofs, addr =>
    if read_bytes = 0 then ([], [])
    else
      let page_read_bytes := if read_bytes < PGSIZE then read_bytes else PGSIZE
      let page_zero_bytes := PGSIZE - page_read_bytes
      let kpage := palloc i
      let p := SPT_insert (some mfile) ofs addr (some kpage)
        page_read_bytes page_zero_bytes true .FOR_MMAP
      let rest := mmap_loop mfile palloc fuel (i + 1)
        (read_bytes - page_read_bytes) (ofs + page_read_bytes) (addr + PGSIZE)
      (p :: rest.1,
       [.pallocGet kpage, .fileReadEv mfile kpage page_read_bytes page_read_bytes] ++ rest.2)

/-- `mmap` from `src/userprog/syscall.c`.  Validation: fd 0/1, a null or
unaligned address, an unopened fd, an empty file, an address inside an
existing mapping, or an address at/above `PHYS_BASE - PGSIZE` or at/below the
data segment top, each return -1 with the thread untouched.  Otherwise a
mapping with id `list_size(mmap_table) + 1` is recorded, the file is
re-opened, and the page loop eagerly allocates kernel pages and reads the
file content into them while inserting the `FOR_MMAP` SPT entries. -/
def mmap (t : Thread) (flen : Nat → Nat) (fd : Nat) (addr : Nat)
    (env : MmapEnv) : Int × Thread × List Ev :=
  if fd = 0 ∨ fd = 1 ∨ addr = 0 then (-1, t, [])
  else if pg_ofs addr ≠ 0 then (-1, t, [])
  else
    match t.fd_table.getD fd none with
    | none => (-1, t, [])
    | some f =>
      if flen f = 0 then (-1, t, [])
      else if (find_mapping_addr t.mmap_table addr).isSome then (-1, t, [])
      else if PHYS_BASE - PGSIZE ≤ addr ∨ addr ≤ t.data_segment_start then (-1, t, [])
      else
        let len := flen f
        let mid := t.mmap_table.length + 1
        let mfile := env.reopen
        let loopRes := mmap_loop mfile env.palloc len 0 len 0 addr
        let m : Mapping := ⟨mid, addr, len, mfile, fd, loopRes.1.map (·.page_addr)⟩
        let t2 := { t with
          mmap_table := t.mmap_table ++ [m],
          SPT := t.SPT ++ loopRes.1 }
        ((mid : Int), t2, loopRes.2)

/-- `munmap_write` from `src/userprog/syscall.c`: exit with -1 when the id is
unknown; otherwise, under the filesystem lock, walk the thread's entire SPT
and `file_write_at` every `FOR_MMAP` entry whose vpage is MMU-dirty, to its
own backing file at its recorded offset and length. -/
def munmap_write (t : Thread) (mapping : Nat) : List Ev × Option Thread :=
  match find_mapping_id t.mmap_table mapping with
  | none => ([.exitEv (-1)], none)
  | some _ =>
    let wbs := (t.SPT.filter
        (fun p => decide (p.purpose = .FOR_MMAP) && pagedir_is_dirty t p.page_addr)).map
      (fun p => Ev.fileWriteAt (p.page_file.getD 0) p.page_addr p.read_bytes p.ofs)
    ([.lockAcq] ++ wbs ++ [.lockRel], some t)

/-- `munmap_free` from `src/userprog/syscall.c`: exit with -1 when the id is
unknown; otherwise, for each page of the mapping, `frame_free` its page
address, clear its MMU mapping and delete its SPT entry, then remove the
mapping record.  The source's `file_close(m->file)` is commented out, so no
close is performed. -/
def munmap_free (t : Thread) (mapping : Nat) : List Ev × Option Thread :=
  match find_mapping_id t.mmap_table mapping with
  | none => ([.exitEv (-1)], none)
  | some m =>
    let evs := (m.pages.map (fun a => [Ev.frameFree a, Ev.clearPage a])).flatten
    let t2 := m.pages.foldl
      (fun s a =>
        pagedir_clear_page { s with SPT := s.SPT.filter (fun p => p.page_addr ≠ a) } a)
      t
    let t3 := { t2 with mmap_table := t2.mmap_table.erase m }
    (evs, some t3)

/-- `munmap` from `src/userprog/syscall.c`: `munmap_write` then `munmap_free`
on the current thread. -/
def munmap (t : Thread) (mapping : Nat) : List Ev × Option Thread :=
  match munmap_write t mapping with
  | (evs, none) => (evs, none)
  | (evs, some t1) =>
    let r := munmap_free t1 mapping
    (evs ++ r.1, r.2)

/-- `read` from `src/userprog/syscall.c`: fd < 0, fd = 1 or fd out of range
exit with -1; otherwise each buffer byte is touched, then under the
filesystem lock fd 0 reads the keyboard and other fds read the file (`got`
is the byte count `file_read` returns), -1 when the fd is not open. -/
def read (t : Thread) (fd : Int) (buffer : Nat) (size : Nat)
    (got : Nat) : List Ev × Option Int :=
  if fd < 0 ∨ fd = 1 ∨ (FD_TABLE_SIZE : Int) ≤ fd then ([.exitEv (-1)], none)
  else
    let touches := (List.range size).map (fun j => Ev.touch (buffer + j))
    if fd = 0 then
      (touches ++ [Ev.lockAcq] ++ (List.range size).map (fun _ => Ev.inputGetcEv) ++
        [Ev.lockRel], some (size : Int))
    else
      match t.fd_table.getD fd.toNat none with
      | none => (touches ++ [Ev.lockAcq, Ev.lockRel], some (-1))
      | some f =>
        (touches ++ [Ev.lockAcq, Ev.fileReadEv f buffer size got, Ev.lockRel],
         some (got : Int))

/-- `write` from `src/userprog/syscall.c`: fd < 1 or fd out of range exit
with -1; otherwise each buffer byte is touched, then under the filesystem
lock fd 1 goes to the console and other fds write the file (`wrote` is the
byte count `file_write` returns), -1 when the fd is not open. -/
def write (t : Thread) (fd : Int) (buffer : Nat) (size : Nat)
    (wrote : Nat) : List Ev × Option Int :=
  if fd < 1 ∨ (FD_TABLE_SIZE : Int) ≤ fd then ([.exitEv (-1)], none)
  else
    let touches := (List.range size).map (fun j => Ev.touch (buffer + j))
    if fd = 1 then
      (touches ++ [Ev.lockAcq, Ev.putbufEv, Ev.lockRel], some (size : Int))
    else
      match t.fd_table.getD fd.toNat none with
      | none => (touches ++ [Ev.lockAcq, Ev.lockRel], some (-1))
      | some f =>
        (touches ++ [Ev.lockAcq, Ev.fileWriteEv f buffer size, Ev.lockRel],
         some (wrote : Int))

/-- Following the spec's words for the pages `mmap` creates, as amended by
the eager behaviour of the source: one SPT entry per covered page
(`⌈len / PGSIZE⌉` of them) with `purpose = MMAP`, `writable = true` and the
appropriate `(offset, read_bytes, zero_bytes)`; each entry carries the
eagerly allocated kernel page rather than being `NOT_LOADED`. -/
def mmapPagesSpec (mfile : Nat) (palloc : Nat → Nat) (len addr : Nat) : List Page :=
  (List.range ((len + PGSIZE - 1) / PGSIZE)).map (fun j =>
    ⟨some mfile, j * PGSIZE, addr + j * PGSIZE, some (palloc j),
     min (len - j * PGSIZE) PGSIZE, PGSIZE - min (len - j * PGSIZE) PGSIZE,
     true, .FOR_MMAP, false, 0⟩)

/-- The external actions of a successful `mmap`: per covered page, a kernel
page allocation followed by a full read of that page's file content. -/
def mmapEvsSpec (mfile : Nat) (palloc : Nat → Nat) (len : Nat) : List Ev :=
  ((List.range ((len + PGSIZE - 1) / PGSIZE)).map (fun j =>
    [Ev.pallocGet (palloc j),
     Ev.fileReadEv mfile (palloc j) (min (len - j * PGSIZE) PGSIZE)
       (min (len - j * PGSIZE) PGSIZE)])).flatten

/-- Example fd table: fds 2, 3, 4 open on file handles 7, 8, 11. -/
def fdTableEx : List (Option Nat) := [none, none, some 7, some 8, some 11]

/-- Example file lengths: handle 7 holds 1 byte, 8 holds 5000, 11 holds 2. -/
def flenEx : Nat → Nat :=
  fun f => if f = 7 then 1 else if f = 8 then 5000 else if f = 11 then 2 else 0

/-- Example thread: empty SPT, user stack pointer at `PHYS_BASE - PGSIZE`,
data segment top at 0x08048000. -/
def threadEx : Thread := ⟨[], 0xBF800000, [], [], [], 0x08048000, fdTableEx, []⟩

/-- A resident MMAP-backed page at 0x20000000 (first page of file handle 9). -/
def pageEx1 : Page := ⟨some 9, 0, 0x20000000, some 0x100000, 4096, 0, true, .FOR_MMAP, false, 0⟩

/-- A resident MMAP-backed page at 0x20001000 (second page of file handle 9). -/
def pageEx2 : Page := ⟨some 9, 4096, 0x20001000, some 0x101000, 904, 3192, true, .FOR_MMAP, false, 0⟩

/-- A thread with one active 5000-byte mapping (id 1, file handle 9) whose
second page is MMU-dirty. -/
def threadMapEx : Thread :=
  ⟨[pageEx1, pageEx2], 0xBF800000,
   [(0x20000000, 0x100000, true), (0x20001000, 0x101000, true)],
   [0x20001000],
   [⟨1, 0x20000000, 5000, 9, 2, [0x20000000, 0x20001000]⟩],
   0x08048000, fdTableEx, []⟩

/-- A FILE-backed SPT entry currently swapped out to slot 5. -/
def pageSwapEx : Page := ⟨some 7, 0, 0x20000000, none, 4096, 0, true, .FOR_FILE, true, 5⟩

/-- A thread whose only SPT entry is `pageSwapEx`, with slots 5 and 6 allocated. -/
def threadSwapEx : Thread :=
  ⟨[pageSwapEx], 0xBF800000, [], [], [], 0x08048000, fdTableEx, [5, 6]⟩

/-- A FILE-backed SPT entry at 0x08049000, not loaded. -/
def pageFileEx : Page := ⟨some 7, 0, 0x08049000, none, 4096, 0, true, .FOR_FILE, false, 0⟩

/-- A thread whose only SPT entry is `pageFileEx`. -/
def threadFileEx : Thread :=
  ⟨[pageFileEx], 0xBF800000, [], [], [], 0x08048000, fdTableEx, []⟩

/-- A STACK SPT entry at 0xBFFFE000, currently swapped out to slot 3. -/
def pageStackEx : Page := ⟨none, 0, 0xBFFFE000, none, 0, 4096, true, .FOR_STACK, true, 3⟩

/-- A thread whose only SPT entry is `pageStackEx`, with slot 3 allocated. -/
def threadStackEx : Thread :=
  ⟨[pageStackEx], 0xBF900000, [], [], [], 0x08048000, fdTableEx, [3]⟩

/-- State after `mmap(2, 0x20000000)` on `threadEx` (mapping id 1). -/
def c7state1 : Thread :=
  (mmap threadEx flenEx 2 0x20000000 ⟨9, fun i => 0x100000 + i * 0x1000⟩).2.1

/-- The second `mmap(3, 0x20002000)` call (returns mapping id 2). -/
def c7call2 : Int × Thread × List Ev :=
  mmap c7state1 flenEx 3 0x20002000 ⟨10, fun i => 0x200000 + i * 0x1000⟩

/-- State after `munmap(1)` removed the first mapping. -/
def c7state3 : Thread := (munmap c7call2.2.1 1).2.getD c7call2.2.1

/-- The third `mmap(4, 0x20004000)` call; its id collides with the still
active mapping id 2 because ids are assigned as `list_size + 1`. -/
def c7call4 : Int × Thread × List Ev :=
  mmap c7state3 flenEx 4 0x20004000 ⟨12, fun i => 0x300000 + i * 0x1000⟩

/-- An SPT lookup that succeeds returns an entry keyed by the searched page
address. -/
theorem SPT_search_addr (t : Thread) (a : Nat) (p : Page)
    (h : SPT_search t a = some p) : p.page_addr = a := by
  unfold SPT_search at h
  have := List.find?_some h
  simpa using this

/-- Updating every entry keyed `a` in a list and then searching for `a` finds
the updated form of the entry the original search found. -/
theorem find_update_list (l : List Page) (a : Nat) (f : Page → Page)
    (hf : ∀ q, (f q).page_addr = q.page_addr) (p : Page)
    (hp : l.find? (fun q => q.page_addr = a) = some p) :
    (l.map (fun q => if q.page_addr = a then f q else q)).find?
      (fun q => q.page_addr = a) = some (f p) := by
  induction l with
  | nil => simp at hp
  | cons q tl ih =>
    by_cases hq : q.page_addr = a
    · simp [hq] at hp
      subst hp
      simp [hq, hf]
    · have hq2 : ¬ ((if q.page_addr = a then f q else q).page_addr = a) := by
        rw [if_neg hq]; exact hq
      rw [List.map_cons, List.find?_cons_of_neg _ (by simpa using hq2)]
      rw [List.find?_cons_of_neg _ (by simpa using hq)] at hp
      exact ih hp

/-- `SPT_update` at an address transforms exactly the entry `SPT_search`
finds there. -/
theorem SPT_search_update_self (t : Thread) (a : Nat) (f : Page → Page)
    (hf : ∀ q, (f q).page_addr = q.page_addr) (p : Page)
    (hp : SPT_search t a = some p) :
    SPT_search (SPT_update t a f) a = some (f p) := by
  unfold SPT_search SPT_update at *
  exact find_update_list t.SPT a f hf p hp

/-- Closed form of `mmap_loop`: with enough fuel it produces one SPT entry
and one palloc-plus-read event pair per covered page, with offsets advancing
by `PGSIZE` and the last page reading only the remaining bytes. -/
theorem mmap_loop_spec (mfile : Nat) (palloc : Nat → Nat) :
    ∀ (fuel i rb ofs addr : Nat), rb ≤ fuel →
    mmap_loop mfile palloc fuel i rb ofs addr =
      ((List.range ((rb + PGSIZE - 1) / PGSIZE)).map (fun j =>
         (⟨some mfile, ofs + j * PGSIZE, addr + j * PGSIZE, some (palloc (i + j)),
           min (rb - j * PGSIZE) PGSIZE, PGSIZE - min (rb - j * PGSIZE) PGSIZE,
           true, Purpose.FOR_MMAP, false, 0⟩ : Page)),
       ((List.range ((rb + PGSIZE - 1) / PGSIZE)).map (fun j =>
         [Ev.pallocGet (palloc (i + j)),
          Ev.fileReadEv mfile (palloc (i + j)) (min (rb - j * PGSIZE) PGSIZE)
            (min (rb - j * PGSIZE) PGSIZE)])).flatten) := by
  intro fuel
  induction fuel with
  | zero =>
    intro i rb ofs addr hle
    have h0 : rb = 0 := Nat.le_zero.mp hle
    subst h0
    have hz : (PGSIZE - 1) / PGSIZE = 0 := by norm_num [PGSIZE]
    simp [mmap_loop, hz]
  | succ fuel ih =>
    intro i rb ofs addr hle
    by_cases h0 : rb = 0
    · subst h0
      have hz : (PGSIZE - 1) / PGSIZE = 0 := by norm_num [PGSIZE]
      simp [mmap_loop, hz]
    · simp only [mmap_loop, if_neg h0]
      by_cases hsmall : rb < PGSIZE
      · simp only [if_pos hsmall]
        rw [ih (i + 1) (rb - rb) (ofs + rb) (addr + PGSIZE) (by omega)]
        have hn : (rb + PGSIZE - 1) / PGSIZE = 1 := by
          simp only [PGSIZE] at *
          omega
        have hz : (rb - rb + PGSIZE - 1) / PGSIZE = 0 := by
          simp only [PGSIZE]
          omega
        rw [hn, hz]
        simp [SPT_insert, List.range_succ]
        omega
      · simp only [if_neg hsmall]
        rw [ih (i + 1) (rb - PGSIZE) (ofs + PGSIZE) (addr + PGSIZE)
          (by simp only [PGSIZE] at *; omega)]
        have hceil : (rb + PGSIZE - 1) / PGSIZE = (rb - PGSIZE + PGSIZE - 1) / PGSIZE + 1 := by
          simp only [PGSIZE] at *
          omega
        rw [hceil, List.range_succ_eq_map]
        simp only [List.map_cons, List.map_map, List.flatten_cons, Prod.mk.injEq]
        have hminP : rb ⊓ PGSIZE = PGSIZE := Nat.min_eq_right (by omega)
        constructor
        · congr 1
          · simp [SPT_insert, hminP]
          · congr 1
            funext j
            simp only [Function.comp_apply, Nat.succ_eq_add_one]
            have e1 : ofs + PGSIZE + j * PGSIZE = ofs + (j + 1) * PGSIZE := by ring
            have e2 : addr + PGSIZE + j * PGSIZE = addr + (j + 1) * PGSIZE := by ring
            have e3 : i + 1 + j = i + (j + 1) := by ring
            have e4 : rb - PGSIZE - j * PGSIZE = rb - (j + 1) * PGSIZE := by
              rw [Nat.sub_sub, Nat.add_one_mul, Nat.add_comm (j * PGSIZE) PGSIZE]
            rw [e1, e2, e3, e4]
        · congr 1
          · simp [hminP]
          · congr 1
            congr 1
            funext j
            simp only [Function.comp_apply, Nat.succ_eq_add_one]
            have e3 : i + 1 + j = i + (j + 1) := by ring
            have e4 : rb - PGSIZE - j * PGSIZE = rb - (j + 1) * PGSIZE := by
              rw [Nat.sub_sub, Nat.add_one_mul, Nat.add_comm (j * PGSIZE) PGSIZE]
            rw [e3, e4]

/-- Claim C1 counterexample: at `fault_addr = PHYS_BASE - 8 MiB` exactly, with
no SPT entry and the address within `user_esp - 32`, the claim requires the
fault to succeed with a new STACK entry, but the source's `<=` comparison
terminates the process with -1. -/
theorem C1_boundary_counterexample :
    PHYS_BASE - 8 * 1024 * 1024 ≤ 0xBF800000 ∧
    usub32 0xBF800000 32 ≤ 0xBF800000 ∧
    SPT_search threadEx (pg_round_down 0xBF800000) = none ∧
    page_fault threadEx 0xBF800000 true true 0xBF800000 ⟨0x1000, true, 0⟩ =
      ([Ev.exitEv (-1)], none) := by decide

/-- Claim C1 as amended: for a fault with no SPT entry, the process is
terminated with -1 when `fault_addr` is at or below `PHYS_BASE - 8 MiB` (not
only strictly below); when `fault_addr` is strictly above that bound and at
or above `user_esp - 32`, a STACK SPT entry for the fault page is created, a
zero-filled frame is installed writable in the MMU and the recorded `esp`
becomes `fault_addr`; otherwise the process is terminated with -1. -/
theorem C1_stack_growth_amended (t : Thread) (fa : Nat) (w u : Bool) (fesp : Nat)
    (env : FaultEnv)
    (h0 : fa ≠ 0) (h1 : fa < PHYS_BASE)
    (h2 : SPT_search t (pg_round_down fa) = none) :
    (fa ≤ PHYS_BASE - 0x800000 →
      page_fault t fa w u fesp env = ([Ev.exitEv (-1)], none)) ∧
    (PHYS_BASE - 0x800000 < fa →
      usub32 (if u then fesp else t.esp) 32 ≤ fa →
      ∃ t2, page_fault t fa w u fesp env =
        ([Ev.frameAlloc env.frame_page true false,
          Ev.installEv (pg_round_down fa) env.frame_page true env.install_ok], some t2) ∧
        t2.SPT = t.SPT ++
          [SPT_insert none 0 (pg_round_down fa) (some env.frame_page) 0 PGSIZE true
            Purpose.FOR_STACK] ∧
        t2.esp = fa ∧
        (env.install_ok = true →
          t2.pagedir = (pg_round_down fa, env.frame_page, true) :: t.pagedir)) ∧
    (PHYS_BASE - 0x800000 < fa →
      fa < usub32 (if u then fesp else t.esp) 32 →
      page_fault t fa w u fesp env = ([Ev.exitEv (-1)], none)) := by
  have hv : is_user_vaddr fa = true := by simp [is_user_vaddr, h1]
  refine ⟨fun hle => ?_, fun hgt hesp => ?_, fun hgt hesp => ?_⟩
  · simp [page_fault, hv, h0, h2, stack_growth, hle]
  · have hnle : ¬ fa ≤ PHYS_BASE - 0x800000 := not_le.mpr hgt
    simp [page_fault, hv, h0, h2, stack_growth, hnle, hesp]
    constructor
    · cases hok : env.install_ok <;> simp [pagedir_set_page, hok]
    · intro hok
      simp [pagedir_set_page, hok]
  · have hnle : ¬ fa ≤ PHYS_BASE - 0x800000 := not_le.mpr hgt
    have hnesp : ¬ usub32 (if u then fesp else t.esp) 32 ≤ fa := not_le.mpr hesp
    simp [page_fault, hv, h0, h2, stack_growth, hnle, hnesp]

/-- Witness for the amended claim C1 at a concrete fault above the bound. -/
theorem C1_stack_growth_amended_witness :
    ((0xBFFFF000 : Nat) ≠ 0 ∧ (0xBFFFF000 : Nat) < PHYS_BASE ∧
      SPT_search threadEx (pg_round_down 0xBFFFF000) = none) ∧
    (((0xBFFFF000 : Nat) ≤ PHYS_BASE - 0x800000 →
        page_fault threadEx 0xBFFFF000 true true 0xBFFFF000 ⟨0x1000, true, 0⟩ =
          ([Ev.exitEv (-1)], none)) ∧
     (PHYS_BASE - 0x800000 < (0xBFFFF000 : Nat) →
        usub32 (if (true : Bool) then (0xBFFFF000 : Nat) else threadEx.esp) 32 ≤ 0xBFFFF000 →
        ∃ t2, page_fault threadEx 0xBFFFF000 true true 0xBFFFF000 ⟨0x1000, true, 0⟩ =
          ([Ev.frameAlloc 0x1000 true false,
            Ev.installEv (pg_round_down 0xBFFFF000) 0x1000 true true], some t2) ∧
          t2.SPT = threadEx.SPT ++
            [SPT_insert none 0 (pg_round_down 0xBFFFF000) (some 0x1000) 0 PGSIZE true
              Purpose.FOR_STACK] ∧
          t2.esp = 0xBFFFF000 ∧
          ((true : Bool) = true →
            t2.pagedir = (pg_round_down 0xBFFFF000, 0x1000, true) :: threadEx.pagedir)) ∧
     (PHYS_BASE - 0x800000 < (0xBFFFF000 : Nat) →
        (0xBFFFF000 : Nat) <
          usub32 (if (true : Bool) then (0xBFFFF000 : Nat) else threadEx.esp) 32 →
        page_fault threadEx 0xBFFFF000 true true 0xBFFFF000 ⟨0x1000, true, 0⟩ =
          ([Ev.exitEv (-1)], none))) :=
  ⟨⟨by decide, by decide, by decide⟩,
   C1_stack_growth_amended threadEx 0xBFFFF000 true true 0xBFFFF000 ⟨0x1000, true, 0⟩
     (by decide) (by decide) (by decide)⟩

/-- Claim C2 counterexample: a successful `mmap` call allocates a kernel page
and reads the file content at mmap time, and the created SPT entry carries
that frame; the claim's "no frame is allocated and no file content is read at
mmap time" and "residency NOT_LOADED" are false of the source. -/
theorem C2_eager_mmap_counterexample :
    (mmap threadEx flenEx 3 0x20000000 ⟨9, fun i => 0x100000 + i * 0x1000⟩).1 = 1 ∧
    Ev.fileReadEv 9 0x100000 4096 4096 ∈
      (mmap threadEx flenEx 3 0x20000000 ⟨9, fun i => 0x100000 + i * 0x1000⟩).2.2 ∧
    Ev.pallocGet 0x100000 ∈
      (mmap threadEx flenEx 3 0x20000000 ⟨9, fun i => 0x100000 + i * 0x1000⟩).2.2 ∧
    SPT_search (mmap threadEx flenEx 3 0x20000000 ⟨9, fun i => 0x100000 + i * 0x1000⟩).2.1
        0x20000000 =
      some ⟨some 9, 0, 0x20000000, some 0x100000, 4096, 0, true, .FOR_MMAP, false, 0⟩ := by
  decide

/-- Claim C2 as amended: a successful `mmap(fd, addr)` on a file of length L
creates exactly `⌈L / PGSIZE⌉` SPT entries, one per covered page, each with
`purpose = MMAP`, `writable = true` and the appropriate
`(offset, read_bytes, zero_bytes)`; contrary to the claim, each entry carries
an eagerly allocated kernel page and the file content is read into it at
mmap time (`mmapPagesSpec` / `mmapEvsSpec`). -/
theorem C2_mmap_entries_amended (t : Thread) (flen : Nat → Nat) (fd addr : Nat)
    (env : MmapEnv) (f : Nat)
    (hA : ¬ (fd = 0 ∨ fd = 1 ∨ addr = 0))
    (hal : pg_ofs addr = 0)
    (hf : t.fd_table.getD fd none = some f)
    (hlen : flen f ≠ 0)
    (hov : (find_mapping_addr t.mmap_table addr).isSome = false)
    (hreg : ¬ (PHYS_BASE - PGSIZE ≤ addr ∨ addr ≤ t.data_segment_start)) :
    (mmap t flen fd addr env).1 = ((t.mmap_table.length + 1 : Nat) : Int) ∧
    (mmap t flen fd addr env).2.1.SPT =
      t.SPT ++ mmapPagesSpec env.reopen env.palloc (flen f) addr ∧
    (mmap t flen fd addr env).2.2 = mmapEvsSpec env.reopen env.palloc (flen f) := by
  have hm : mmap t flen fd addr env =
      (((t.mmap_table.length + 1 : Nat) : Int),
       { t with
         mmap_table := t.mmap_table ++
           [⟨t.mmap_table.length + 1, addr, flen f, env.reopen, fd,
             (mmap_loop env.reopen env.palloc (flen f) 0 (flen f) 0 addr).1.map
               (·.page_addr)⟩],
         SPT := t.SPT ++ (mmap_loop env.reopen env.palloc (flen f) 0 (flen f) 0 addr).1 },
       (mmap_loop env.reopen env.palloc (flen f) 0 (flen f) 0 addr).2) := by
    unfold mmap
    simp only [hf]
    rw [if_neg hA, if_neg (by simp [hal]), if_neg hlen, if_neg (by simp [hov]),
      if_neg hreg]
  have hl := mmap_loop_spec env.reopen env.palloc (flen f) 0 (flen f) 0 addr (le_refl _)
  have hfn1 : (fun j : Nat => (⟨some env.reopen, 0 + j * PGSIZE, addr + j * PGSIZE,
      some (env.palloc (0 + j)), min (flen f - j * PGSIZE) PGSIZE,
      PGSIZE - min (flen f - j * PGSIZE) PGSIZE, true, Purpose.FOR_MMAP, false, 0⟩ : Page)) =
      (fun j : Nat => (⟨some env.reopen, j * PGSIZE, addr + j * PGSIZE,
      some (env.palloc j), min (flen f - j * PGSIZE) PGSIZE,
      PGSIZE - min (flen f - j * PGSIZE) PGSIZE, true, Purpose.FOR_MMAP, false, 0⟩ : Page)) := by
    funext j
    simp
  have hfn2 : (fun j : Nat => [Ev.pallocGet (env.palloc (0 + j)),
      Ev.fileReadEv env.reopen (env.palloc (0 + j)) (min (flen f - j * PGSIZE) PGSIZE)
        (min (flen f - j * PGSIZE) PGSIZE)]) =
      (fun j : Nat => [Ev.pallocGet (env.palloc j),
      Ev.fileReadEv env.reopen (env.palloc j) (min (flen f - j * PGSIZE) PGSIZE)
        (min (flen f - j * PGSIZE) PGSIZE)]) := by
    funext j
    simp
  have hl1 : (mmap_loop env.reopen env.palloc (flen f) 0 (flen f) 0 addr).1 =
      mmapPagesSpec env.reopen env.palloc (flen f) addr := by
    unfold mmapPagesSpec
    rw [hl, hfn1]
  have hl2 : (mmap_loop env.reopen env.palloc (flen f) 0 (flen f) 0 addr).2 =
      mmapEvsSpec env.reopen env.palloc (flen f) := by
    unfold mmapEvsSpec
    rw [hl, hfn2]
  refine ⟨by rw [hm], ?_, ?_⟩
  · rw [hm]
    show t.SPT ++ (mmap_loop env.reopen env.palloc (flen f) 0 (flen f) 0 addr).1 =
      t.SPT ++ mmapPagesSpec env.reopen env.palloc (flen f) addr
    rw [hl1]
  · rw [hm]
    show (mmap_loop env.reopen env.palloc (flen f) 0 (flen f) 0 addr).2 =
      mmapEvsSpec env.reopen env.palloc (flen f)
    rw [hl2]

/-- Witness for the amended claim C2 at a concrete two-page mapping. -/
theorem C2_mmap_entries_amended_witness :
    ((¬ ((3 : Nat) = 0 ∨ (3 : Nat) = 1 ∨ (0x20000000 : Nat) = 0)) ∧
     pg_ofs 0x20000000 = 0 ∧
     threadEx.fd_table.getD 3 none = some 8 ∧
     flenEx 8 ≠ 0 ∧
     (find_mapping_addr threadEx.mmap_table 0x20000000).isSome = false ∧
     ¬ (PHYS_BASE - PGSIZE ≤ (0x20000000 : Nat) ∨
        (0x20000000 : Nat) ≤ threadEx.data_segment_start)) ∧
    ((mmap threadEx flenEx 3 0x20000000 ⟨9, fun i => 0x100000 + i * 0x1000⟩).1 =
        ((threadEx.mmap_table.length + 1 : Nat) : Int) ∧
     (mmap threadEx flenEx 3 0x20000000 ⟨9, fun i => 0x100000 + i * 0x1000⟩).2.1.SPT =
        threadEx.SPT ++
          mmapPagesSpec 9 (fun i => 0x100000 + i * 0x1000) (flenEx 8) 0x20000000 ∧
     (mmap threadEx flenEx 3 0x20000000 ⟨9, fun i => 0x100000 + i * 0x1000⟩).2.2 =
        mmapEvsSpec 9 (fun i => 0x100000 + i * 0x1000) (flenEx 8)) :=
  ⟨⟨by decide, by decide, by decide, by decide, by decide, by decide⟩,
   C2_mmap_entries_amended threadEx flenEx 3 0x20000000
     ⟨9, fun i => 0x100000 + i * 0x1000⟩ 8
     (by decide) (by decide) (by decide) (by decide) (by decide) (by decide)⟩

/-- Claim C3: a fault on a FILE-purpose SPT entry that is swapped out makes
the handler allocate a frame, read the page back from the recorded swap
slot, free the slot (`SD_read` is modelled from the spec as freeing on
reload), install the MMU mapping with the entry's writable permission, and
mark the entry resident (swap flag cleared, frame recorded). -/
theorem C3_file_swapped_reload (t : Thread) (fa : Nat) (w u : Bool) (fesp : Nat)
    (env : FaultEnv) (p : Page)
    (h0 : fa ≠ 0) (h1 : fa < PHYS_BASE)
    (h2 : SPT_search t (pg_round_down fa) = some p)
    (hp : p.purpose = Purpose.FOR_FILE)
    (hs : p.is_swapped = true)
    (hw : w = true → p.is_writable = true)
    (hok : env.install_ok = true) :
    ∃ t2, (page_fault t fa w u fesp env).2 = some t2 ∧
      (page_fault t fa w u fesp env).1 =
        [Ev.fileSeek (p.page_file.getD 0) p.ofs,
         Ev.frameAlloc env.frame_page false true,
         Ev.sdRead p.swap_i env.frame_page,
         Ev.installEv p.page_addr env.frame_page p.is_writable true] ∧
      t2.swap_used = t.swap_used.erase p.swap_i ∧
      SPT_search t2 p.page_addr =
        some { p with frame_addr := some env.frame_page, is_swapped := false } ∧
      t2.pagedir = (p.page_addr, env.frame_page, p.is_writable) :: t.pagedir := by
  have hv : is_user_vaddr fa = true := by simp [is_user_vaddr, h1]
  have hwr : (w && !p.is_writable) = false := by
    cases w with
    | false => simp
    | true => simp [hw rfl]
  have hpa : p.page_addr = pg_round_down fa := SPT_search_addr t _ p h2
  have h2f : t.SPT.find? (fun q => q.page_addr = p.page_addr) = some p := by
    have : SPT_search t p.page_addr = some p := by rw [hpa]; exact h2
    simpa [SPT_search] using this
  have hred : page_fault t fa w u fesp env = file_swapped t p env := by
    simp [page_fault, hv, h0, h2, hp, hs, hwr]
  rw [hred]
  simp only [file_swapped, hok]
  refine ⟨_, rfl, ?_, ?_, ?_, ?_⟩
  · simp
  · simp [pagedir_set_page, SPT_update, SD_read]
  · simp only [SPT_search, pagedir_set_page, SPT_update, SD_read, if_true]
    have e1 := find_update_list t.SPT p.page_addr
      (fun q => { q with frame_addr := some env.frame_page }) (fun q => rfl) p h2f
    have e2 := find_update_list (t.SPT.map
        (fun q => if q.page_addr = p.page_addr then
          { q with frame_addr := some env.frame_page } else q))
      p.page_addr (fun q => { q with is_swapped := false }) (fun q => rfl)
      { p with frame_addr := some env.frame_page } e1
    exact e2
  · simp [pagedir_set_page, SPT_update, SD_read]

/-- Witness for claim C3 at a concrete swapped FILE page. -/
theorem C3_file_swapped_reload_witness :
    ((0x20000000 : Nat) ≠ 0 ∧ (0x20000000 : Nat) < PHYS_BASE ∧
     SPT_search threadSwapEx (pg_round_down 0x20000000) = some pageSwapEx ∧
     pageSwapEx.purpose = Purpose.FOR_FILE ∧
     pageSwapEx.is_swapped = true ∧
     ((false : Bool) = true → pageSwapEx.is_writable = true) ∧
     (FaultEnv.mk 0x1000 true 4096).install_ok = true) ∧
    (∃ t2,
      (page_fault threadSwapEx 0x20000000 false true 0xBF800000 ⟨0x1000, true, 4096⟩).2 =
        some t2 ∧
      (page_fault threadSwapEx 0x20000000 false true 0xBF800000 ⟨0x1000, true, 4096⟩).1 =
        [Ev.fileSeek (pageSwapEx.page_file.getD 0) pageSwapEx.ofs,
         Ev.frameAlloc 0x1000 false true,
         Ev.sdRead pageSwapEx.swap_i 0x1000,
         Ev.installEv pageSwapEx.page_addr 0x1000 pageSwapEx.is_writable true] ∧
      t2.swap_used = threadSwapEx.swap_used.erase pageSwapEx.swap_i ∧
      SPT_search t2 pageSwapEx.page_addr =
        some { pageSwapEx with frame_addr := some 0x1000, is_swapped := false } ∧
      t2.pagedir =
        (pageSwapEx.page_addr, 0x1000, pageSwapEx.is_writable) :: threadSwapEx.pagedir) :=
  ⟨⟨by decide, by decide, by decide, by decide, by decide, by decide, by decide⟩,
   C3_file_swapped_reload threadSwapEx 0x20000000 false true 0xBF800000
     ⟨0x1000, true, 4096⟩ pageSwapEx
     (by decide) (by decide) (by decide) (by decide) (by decide) (by decide) (by decide)⟩

/-- Claim C4 counterexample: materializing a FILE page with a full read but a
failed MMU installation, the source neither frees the frame nor terminates
the process; it only prints a message and returns, contradicting the claim. -/
theorem C4_install_failure_counterexample :
    (page_fault threadFileEx 0x08049000 false true 0xBF800000 ⟨0x1000, false, 4096⟩).2 ≠
      none ∧
    Ev.frameFree 0x1000 ∉
      (page_fault threadFileEx 0x08049000 false true 0xBF800000 ⟨0x1000, false, 4096⟩).1 ∧
    Ev.printInstallFail ∈
      (page_fault threadFileEx 0x08049000 false true 0xBF800000 ⟨0x1000, false, 4096⟩).1 := by
  decide

/-- Claim C4 as amended: when materializing a not-loaded FILE or MMAP page, a
short file read frees the allocated frame and terminates the process with
-1, as the claim states; but an MMU installation failure only prints a
message and returns successfully, without freeing the frame or
terminating. -/
theorem C4_materialize_failure_amended (t : Thread) (fa : Nat) (w u : Bool)
    (fesp : Nat) (env : FaultEnv) (p : Page)
    (h0 : fa ≠ 0) (h1 : fa < PHYS_BASE)
    (h2 : SPT_search t (pg_round_down fa) = some p)
    (hp : p.purpose = Purpose.FOR_FILE ∨ p.purpose = Purpose.FOR_MMAP)
    (hs : p.is_swapped = false)
    (hw : w = true → p.is_writable = true) :
    (env.read_got ≠ p.read_bytes →
      page_fault t fa w u fesp env =
        ([Ev.fileSeek (p.page_file.getD 0) p.ofs,
          Ev.frameAlloc env.frame_page false true,
          Ev.fileReadEv (p.page_file.getD 0) env.frame_page p.read_bytes env.read_got,
          Ev.frameFree env.frame_page, Ev.exitEv (-1)], none)) ∧
    (env.read_got = p.read_bytes → env.install_ok = false →
      (∃ t2, (page_fault t fa w u fesp env).2 = some t2) ∧
      Ev.frameFree env.frame_page ∉ (page_fault t fa w u fesp env).1 ∧
      Ev.printInstallFail ∈ (page_fault t fa w u fesp env).1) := by
  have hv : is_user_vaddr fa = true := by simp [is_user_vaddr, h1]
  have hwr : (w && !p.is_writable) = false := by
    cases w with
    | false => simp
    | true => simp [hw rfl]
  rcases hp with hpp | hpp
  · have hred : page_fault t fa w u fesp env = file_not_swapped t p env := by
      simp [page_fault, hv, h0, h2, hpp, hs, hwr]
    rw [hred]
    constructor
    · intro hne
      simp [file_not_swapped, hne]
    · intro heq hnok
      simp [file_not_swapped, heq, hnok]
  · have hred : page_fault t fa w u fesp env = mmap_not_swapped t p env := by
      simp [page_fault, hv, h0, h2, hpp, hs, hwr]
    rw [hred]
    constructor
    · intro hne
      simp [mmap_not_swapped, hne]
    · intro heq hnok
      simp [mmap_not_swapped, heq, hnok]

/-- Witness for the amended claim C4 at a concrete FILE page, exercising the
short-read arm. -/
theorem C4_materialize_failure_amended_witness :
    ((0x08049000 : Nat) ≠ 0 ∧ (0x08049000 : Nat) < PHYS_BASE ∧
     SPT_search threadFileEx (pg_round_down 0x08049000) = some pageFileEx ∧
     (pageFileEx.purpose = Purpose.FOR_FILE ∨ pageFileEx.purpose = Purpose.FOR_MMAP) ∧
     pageFileEx.is_swapped = false ∧
     ((false : Bool) = true → pageFileEx.is_writable = true)) ∧
    (((FaultEnv.mk 0x1000 true 100).read_got ≠ pageFileEx.read_bytes →
       page_fault threadFileEx 0x08049000 false true 0xBF800000 ⟨0x1000, true, 100⟩ =
         ([Ev.fileSeek (pageFileEx.page_file.getD 0) pageFileEx.ofs,
           Ev.frameAlloc 0x1000 false true,
           Ev.fileReadEv (pageFileEx.page_file.getD 0) 0x1000 pageFileEx.read_bytes 100,
           Ev.frameFree 0x1000, Ev.exitEv (-1)], none)) ∧
     ((FaultEnv.mk 0x1000 true 100).read_got = pageFileEx.read_bytes →
       (FaultEnv.mk 0x1000 true 100).install_ok = false →
       (∃ t2,
         (page_fault threadFileEx 0x08049000 false true 0xBF800000 ⟨0x1000, true, 100⟩).2 =
           some t2) ∧
       Ev.frameFree 0x1000 ∉
         (page_fault threadFileEx 0x08049000 false true 0xBF800000 ⟨0x1000, true, 100⟩).1 ∧
       Ev.printInstallFail ∈
         (page_fault threadFileEx 0x08049000 false true 0xBF800000 ⟨0x1000, true, 100⟩).1)) :=
  ⟨⟨by decide, by decide, by decide, by decide, by decide, by decide⟩,
   C4_materialize_failure_amended threadFileEx 0x08049000 false true 0xBF800000
     ⟨0x1000, true, 100⟩ pageFileEx
     (by decide) (by decide) (by decide) (by decide) (by decide) (by decide)⟩

/-- Claim C5 (code bug): on `munmap(1)` of an existing mapping the source
removes the mapping record and tears down its pages (the dirty page is
written back first), but never closes the mapping's re-opened file handle:
the `file_close(m->file)` call in `munmap_free` is commented out. -/
theorem C5_munmap_never_closes_file :
    ((munmap threadMapEx 1).1.all
      (fun e => match e with | Ev.fileCloseEv _ => false | _ => true)) = true ∧
    Ev.fileWriteAt 9 0x20001000 904 4096 ∈ (munmap threadMapEx 1).1 ∧
    (munmap threadMapEx 1).2.map Thread.mmap_table = some [] ∧
    (munmap threadMapEx 1).2.map Thread.SPT = some [] := by decide

/-- Claim C6: every `mmap` validation failure (fd 0 or 1, null or unaligned
address, unopened fd, empty file, address inside an existing mapping, or
address outside the region strictly between the data segment top and
`PHYS_BASE - PGSIZE`) returns -1 with the thread unchanged, performing no
external action and not terminating the process. -/
theorem C6_mmap_validation_rejects (t : Thread) (flen : Nat → Nat) (fd addr : Nat)
    (env : MmapEnv)
    (h : fd = 0 ∨ fd = 1 ∨ addr = 0 ∨ pg_ofs addr ≠ 0 ∨
         t.fd_table.getD fd none = none ∨
         (t.fd_table.getD fd none).map flen = some 0 ∨
         (find_mapping_addr t.mmap_table addr).isSome = true ∨
         PHYS_BASE - PGSIZE ≤ addr ∨ addr ≤ t.data_segment_start) :
    mmap t flen fd addr env = (-1, t, []) := by
  unfold mmap
  by_cases hA : fd = 0 ∨ fd = 1 ∨ addr = 0
  · rw [if_pos hA]
  · rw [if_neg hA]
    by_cases hB : pg_ofs addr ≠ 0
    · rw [if_pos hB]
    · rw [if_neg hB]
      cases hfd : t.fd_table.getD fd none with
      | none => rfl
      | some f =>
        change (if flen f = 0 then ((-1 : Int), t, ([] : List Ev))
          else if (find_mapping_addr t.mmap_table addr).isSome = true then (-1, t, [])
          else if PHYS_BASE - PGSIZE ≤ addr ∨ addr ≤ t.data_segment_start then (-1, t, [])
          else _) = (-1, t, [])
        rcases h with h | h | h | h | h | h | h | h | h
        · exact absurd (Or.inl h) hA
        · exact absurd (Or.inr (Or.inl h)) hA
        · exact absurd (Or.inr (Or.inr h)) hA
        · exact absurd h hB
        · rw [h] at hfd; cases hfd
        · rw [hfd] at h
          simp only [Option.map_some', Option.some.injEq] at h
          rw [if_pos h]
        · by_cases hz : flen f = 0
          · rw [if_pos hz]
          · rw [if_neg hz, if_pos h]
        · by_cases hz : flen f = 0
          · rw [if_pos hz]
          · by_cases hov : (find_mapping_addr t.mmap_table addr).isSome = true
            · rw [if_neg hz, if_pos hov]
            · rw [if_neg hz, if_neg hov, if_pos (Or.inl h)]
        · by_cases hz : flen f = 0
          · rw [if_pos hz]
          · by_cases hov : (find_mapping_addr t.mmap_table addr).isSome = true
            · rw [if_neg hz, if_pos hov]
            · rw [if_neg hz, if_neg hov, if_pos (Or.inr h)]

/-- Witness for claim C6 with fd 0 (stdin). -/
theorem C6_mmap_validation_rejects_witness :
    ((0 : Nat) = 0 ∨ (0 : Nat) = 1 ∨ (0x20000000 : Nat) = 0 ∨
     pg_ofs 0x20000000 ≠ 0 ∨
     threadEx.fd_table.getD 0 none = none ∨
     (threadEx.fd_table.getD 0 none).map flenEx = some 0 ∨
     (find_mapping_addr threadEx.mmap_table 0x20000000).isSome = true ∨
     PHYS_BASE - PGSIZE ≤ (0x20000000 : Nat) ∨
     (0x20000000 : Nat) ≤ threadEx.data_segment_start) ∧
    mmap threadEx flenEx 0 0x20000000 ⟨9, fun i => i⟩ = (-1, threadEx, []) :=
  ⟨by decide,
   C6_mmap_validation_rejects threadEx flenEx 0 0x20000000 ⟨9, fun i => i⟩ (by decide)⟩

/-- Claim C7 (code bug): mapping ids are assigned as `list_size + 1`, so the
sequence mmap (id 1), mmap (id 2), munmap(1), mmap reuses id 2 while the
mapping with id 2 is still active: per-process uniqueness of active mapping
ids is violated. -/
theorem C7_duplicate_mapping_id :
    c7call2.1 = 2 ∧
    c7call4.1 = 2 ∧
    c7call4.2.1.mmap_table.map Mapping.id = [2, 2] := by decide

/-- Claim C8: a successful fault served by an existing STACK SPT entry
(whether swapped out or not) sets the thread's recorded `esp` to the fault
address, just as the stack-growth path does. -/
theorem C8_stack_fault_sets_esp (t : Thread) (fa : Nat) (w u : Bool) (fesp : Nat)
    (env : FaultEnv) (p : Page)
    (h0 : fa ≠ 0) (h1 : fa < PHYS_BASE)
    (h2 : SPT_search t (pg_round_down fa) = some p)
    (hp : p.purpose = Purpose.FOR_STACK)
    (hw : w = true → p.is_writable = true) :
    ∃ t2, (page_fault t fa w u fesp env).2 = some t2 ∧ t2.esp = fa := by
  have hv : is_user_vaddr fa = true := by simp [is_user_vaddr, h1]
  have hwr : (w && !p.is_writable) = false := by
    cases w with
    | false => simp
    | true => simp [hw rfl]
  cases hs : p.is_swapped with
  | false =>
    simp [page_fault, hv, h0, h2, hp, hs, hwr, stack_not_swapped]
  | true =>
    simp [page_fault, hv, h0, h2, hp, hs, hwr, stack_swapped]

/-- Witness for claim C8 at a concrete swapped stack page. -/
theorem C8_stack_fault_sets_esp_witness :
    ((0xBFFFE123 : Nat) ≠ 0 ∧ (0xBFFFE123 : Nat) < PHYS_BASE ∧
     SPT_search threadStackEx (pg_round_down 0xBFFFE123) = some pageStackEx ∧
     pageStackEx.purpose = Purpose.FOR_STACK ∧
     ((true : Bool) = true → pageStackEx.is_writable = true)) ∧
    (∃ t2,
      (page_fault threadStackEx 0xBFFFE123 true true 0xBF900000 ⟨0x2000, true, 0⟩).2 =
        some t2 ∧
      t2.esp = 0xBFFFE123) :=
  ⟨⟨by decide, by decide, by decide, by decide, by decide⟩,
   C8_stack_fault_sets_esp threadStackEx 0xBFFFE123 true true 0xBF900000
     ⟨0x2000, true, 0⟩ pageStackEx
     (by decide) (by decide) (by decide) (by decide) (by decide)⟩

/-- Claim C9: `munmap_write` on an existing mapping iterates the thread's
entire SPT and writes back exactly the MMU-dirty `FOR_MMAP` entries, each to
its own backing file at its recorded offset and length — with no restriction
to the pages of the mapping being unmapped, so dirty pages of other active
mappings are written as well. -/
theorem C9_munmap_write_walks_entire_spt (t : Thread) (mid : Nat) (m : Mapping)
    (hm : find_mapping_id t.mmap_table mid = some m) :
    (munmap_write t mid).2 = some t ∧
    (∀ p ∈ t.SPT, p.purpose = Purpose.FOR_MMAP → pagedir_is_dirty t p.page_addr = true →
      Ev.fileWriteAt (p.page_file.getD 0) p.page_addr p.read_bytes p.ofs ∈
        (munmap_write t mid).1) ∧
    (∀ f s n o, Ev.fileWriteAt f s n o ∈ (munmap_write t mid).1 →
      ∃ p, p ∈ t.SPT ∧ p.purpose = Purpose.FOR_MMAP ∧
        pagedir_is_dirty t p.page_addr = true ∧
        f = p.page_file.getD 0 ∧ s = p.page_addr ∧ n = p.read_bytes ∧ o = p.ofs) := by
  unfold munmap_write
  rw [hm]
  refine ⟨rfl, ?_, ?_⟩
  · intro p hmem hpu hd
    exact List.mem_append_left _ (List.mem_append_right _ (List.mem_map.mpr
      ⟨p, List.mem_filter.mpr ⟨hmem, by simp [hpu, hd]⟩, rfl⟩))
  · intro f s n o hmem
    simp at hmem
    obtain ⟨p, ⟨hpmem, hpu, hd⟩, e1, e2, e3, e4⟩ := hmem
    exact ⟨p, hpmem, hpu, hd, e1.symm, e2.symm, e3.symm, e4.symm⟩

/-- Witness for claim C9 on the thread with one mapping and a dirty page. -/
theorem C9_munmap_write_walks_entire_spt_witness :
    (find_mapping_id threadMapEx.mmap_table 1 =
      some ⟨1, 0x20000000, 5000, 9, 2, [0x20000000, 0x20001000]⟩) ∧
    ((munmap_write threadMapEx 1).2 = some threadMapEx ∧
     (∀ p ∈ threadMapEx.SPT, p.purpose = Purpose.FOR_MMAP →
        pagedir_is_dirty threadMapEx p.page_addr = true →
        Ev.fileWriteAt (p.page_file.getD 0) p.page_addr p.read_bytes p.ofs ∈
          (munmap_write threadMapEx 1).1) ∧
     (∀ f s n o, Ev.fileWriteAt f s n o ∈ (munmap_write threadMapEx 1).1 →
        ∃ p, p ∈ threadMapEx.SPT ∧ p.purpose = Purpose.FOR_MMAP ∧
          pagedir_is_dirty threadMapEx p.page_addr = true ∧
          f = p.page_file.getD 0 ∧ s = p.page_addr ∧ n = p.read_bytes ∧ o = p.ofs)) :=
  ⟨by decide,
   C9_munmap_write_walks_entire_spt threadMapEx 1
     ⟨1, 0x20000000, 5000, 9, 2, [0x20000000, 0x20001000]⟩ (by decide)⟩

/-- Claim C10: in the `read` and `write` system calls that pass fd
validation, every byte of the user buffer `b .. b+n-1` is touched (in
order) strictly before the filesystem lock is acquired and any I/O happens:
the trace is exactly the `n` touches followed by the lock acquisition. -/
theorem C10_touch_before_lock (t : Thread) (fd : Int) (buffer size got wrote : Nat) :
    (¬ (fd < 0 ∨ fd = 1 ∨ (FD_TABLE_SIZE : Int) ≤ fd) →
      ∃ rest, (read t fd buffer size got).1 =
        (List.range size).map (fun j => Ev.touch (buffer + j)) ++ Ev.lockAcq :: rest) ∧
    (¬ (fd < 1 ∨ (FD_TABLE_SIZE : Int) ≤ fd) →
      ∃ rest, (write t fd buffer size wrote).1 =
        (List.range size).map (fun j => Ev.touch (buffer + j)) ++ Ev.lockAcq :: rest) := by
  constructor
  · intro h
    unfold read
    rw [if_neg h]
    by_cases h0 : fd = 0
    · exact ⟨(List.range size).map (fun _ => Ev.inputGetcEv) ++ [Ev.lockRel],
        by simp [h0]⟩
    · simp only [h0, if_false]
      cases t.fd_table.getD fd.toNat none with
      | none => exact ⟨[Ev.lockRel], by simp⟩
      | some f => exact ⟨[Ev.fileReadEv f buffer size got, Ev.lockRel], by simp⟩
  · intro h
    unfold write
    rw [if_neg h]
    by_cases h1 : fd = 1
    · exact ⟨[Ev.putbufEv, Ev.lockRel], by simp [h1]⟩
    · simp only [h1, if_false]
      cases t.fd_table.getD fd.toNat none with
      | none => exact ⟨[Ev.lockRel], by simp⟩
      | some f => exact ⟨[Ev.fileWriteEv f buffer size, Ev.lockRel], by simp⟩

/-- Witness for claim C10 at fd 2 and a 3-byte buffer. -/
theorem C10_touch_before_lock_witness :
    (¬ ((2 : Int) < 0 ∨ (2 : Int) = 1 ∨ (FD_TABLE_SIZE : Int) ≤ 2)) ∧
    (∃ rest, (read threadEx 2 0x20000000 3 3).1 =
      (List.range 3).map (fun j => Ev.touch (0x20000000 + j)) ++ Ev.lockAcq :: rest) ∧
    (¬ ((2 : Int) < 1 ∨ (FD_TABLE_SIZE : Int) ≤ 2)) ∧
    (∃ rest, (write threadEx 2 0x20000000 3 3).1 =
      (List.range 3).map (fun j => Ev.touch (0x20000000 + j)) ++ Ev.lockAcq :: rest) :=
  ⟨by decide,
   (C10_touch_before_lock threadEx 2 0x20000000 3 3 3).1 (by decide),
   by decide,
   (C10_touch_before_lock threadEx 2 0x20000000 3 3 3).2 (by decide)⟩

end PintosVM
